import Mathlib

/-!
Verification development for the conversational session core of the mom-bot
voice companion appliance.

The development shallowly embeds the session state machine
(src/core/state_machine.py, src/newApp/core/state_machine.py) and the duplex
voice-agent protocol client (src/services/voice_agent.py,
src/newApp/services/voice_agent.py).  Pure logic is translated into Lean
functions; stateful Python objects become explicit state records with the
fields the modeled operations read or write; subprocess, display and socket
side effects are projected onto observation lists (frames sent, audio played,
events emitted, actions performed).  Timestamps are modeled in integer
milliseconds.
-/

set_option maxRecDepth 4000

namespace MomBot

/-! ## Bye detection (VoiceAgentStateMachine._check_for_bye)

Both copies of the state machine (src/core/state_machine.py lines 197-201 and
src/newApp/core/state_machine.py lines 142-149) implement the same check:
the text is lowercased, stripped of surrounding whitespace, trailing
characters from ".!?," are removed, and the result is compared against the
BYE_WORDS set by equality or suffix. -/

namespace ByeDetect

def BYE_WORDS : List String :=
  ["bye", "goodbye", "ok bye", "good bye", "see ya", "see you", "bye bye"]

/-- Python str.lower() (ASCII range; the farewell phrases are ASCII). -/
def pyLower (l : List Char) : List Char :=
  l.map fun c => if 'A' ≤ c && c ≤ 'Z' then Char.ofNat (c.toNat + 32) else c

def isPySpace (c : Char) : Bool :=
  c = ' ' || c = '\t' || c = '\n' || c = '\r' || c = '\x0b' || c = '\x0c'

/-- Python str.strip() on a list of characters. -/
def pyStrip (l : List Char) : List Char :=
  ((l.dropWhile isPySpace).reverse.dropWhile isPySpace).reverse

/-- Python str.rstrip(".!?,") on a list of characters. -/
def rstripPunct (l : List Char) : List Char :=
  (l.reverse.dropWhile (fun c => c = '.' || c = '!' || c = '?' || c = ',')).reverse

/-- The cleaned text: text.lower().strip().rstrip(".!?,"), as a character list. -/
def cleaned (text : String) : List Char :=
  rstripPunct (pyStrip (pyLower text.data))

/-- VoiceAgentStateMachine._check_for_bye: the empty string is rejected up
front, otherwise the cleaned text is matched against BYE_WORDS by equality or
suffix. -/
def check_for_bye (text : String) : Bool :=
  if text = "" then false
  else BYE_WORDS.any (fun bye => cleaned text == bye.data || bye.data.isSuffixOf (cleaned text))

/-- C10: in Active, a user conversation_text triggers the termination path
exactly when its content, lowercased, stripped of surrounding whitespace and
of trailing '.', '!', '?', ',' characters, equals or ends with one of the
farewell phrases; "ok bye" with casing and trailing punctuation triggers it,
and empty content never does. -/
theorem claim_C10 :
    (∀ text : String, check_for_bye text = true ↔
      ∃ bye ∈ BYE_WORDS, cleaned text = bye.data ∨ bye.data <:+ cleaned text)
    ∧ check_for_bye "OK Bye!." = true
    ∧ check_for_bye "" = false := by
  refine ⟨fun text => ?_, by decide, by decide⟩
  unfold check_for_bye
  by_cases h : text = ""
  · subst h
    constructor
    · intro hb
      exact absurd hb (by decide)
    · rintro ⟨bye, hmem, hcase⟩
      have hclean : cleaned "" = [] := by decide
      rw [hclean] at hcase
      have hnil : bye.data = [] := by
        rcases hcase with h1 | h1
        · exact h1.symm
        · exact List.suffix_nil.mp h1
      fin_cases hmem <;> simp_all
  · rw [if_neg h]
    simp [List.any_eq_true, List.isSuffixOf_iff_suffix]

end ByeDetect

/-! ## Conversation termination (VoiceAgentStateMachine._end_conversation)

From src/core/state_machine.py lines 145-159: the agent reference is taken and
cleared under the lock; if an agent was held, a closing-remark injection is
performed unless the reason is "timeout", then the agent is disconnected;
finally the machine transitions to asleep.  The calls made on the Connection
are modeled as an ordered action trace. -/

namespace EndConv

inductive Action where
  | inject (msg : String)
  | disconnect
  | enterAsleep
  deriving DecidableEq

def CLOSING_REMARK : String :=
  "[SYSTEM: The conversation is ending. Say a brief, warm goodbye in 1 sentence. Be sweet about it.]"

/-- VoiceAgentStateMachine._end_conversation as the ordered trace of calls it
performs.  hasAgent records whether self._agent was non-None when the method
took the lock. -/
def end_conversation (hasAgent : Bool) (reason : String) : List Action :=
  if hasAgent then
    (if reason ≠ "timeout" then [Action.inject CLOSING_REMARK] else [])
      ++ [Action.disconnect, Action.enterAsleep]
  else [Action.enterAsleep]

/-- C8: when a conversation terminates with reason "timeout" no closing
remark is injected into the Connection before disconnecting; for every other
reason the closing-remark injection is performed before the disconnect. -/
theorem claim_C8 (reason : String) :
    (reason = "timeout" →
      end_conversation true reason = [Action.disconnect, Action.enterAsleep] ∧
      ∀ msg, Action.inject msg ∉ end_conversation true reason) ∧
    (reason ≠ "timeout" →
      end_conversation true reason
        = [Action.inject CLOSING_REMARK, Action.disconnect, Action.enterAsleep]) := by
  constructor
  · intro h
    subst h
    refine ⟨by decide, fun msg => ?_⟩
    simp [end_conversation]
  · intro h
    simp [end_conversation, h]

/-- Witness for C8 at the concrete reasons "timeout" and "bye". -/
theorem claim_C8_witness :
    end_conversation true "timeout" = [Action.disconnect, Action.enterAsleep] ∧
    end_conversation true "bye"
      = [Action.inject CLOSING_REMARK, Action.disconnect, Action.enterAsleep] :=
  ⟨((claim_C8 "timeout").1 rfl).1, (claim_C8 "bye").2 (by decide)⟩

end EndConv

/-! ## Protocol client, original app (src/services/voice_agent.py)

State record for the VoiceAgent object.  The mic/speaker subprocess handles
and the WebSocket are modeled by whether a handle is held (in the source,
whether the attribute is None); the wire is modeled by the list of injected
messages actually sent.  Display logging and byte counters are omitted as
out-of-scope I/O. -/

namespace OldAgent

structure Agent where
  running : Bool
  mic_proc : Bool
  speaker_proc : Bool
  ws : Bool
  ready : Bool
  silence_seq : Nat
  input_enabled : Bool
  paused : Bool
  output_suppress_until : Nat
  output_buffer : List (List Int)
  injected : List String
  deriving DecidableEq

/-- The state after VoiceAgent.__init__. -/
def init_agent : Agent :=
  { running := false, mic_proc := false, speaker_proc := false, ws := false,
    ready := false, silence_seq := 0, input_enabled := false, paused := false,
    output_suppress_until := 0, output_buffer := [], injected := [] }

/-- VoiceAgent.disconnect (lines 120-167): early return when not running;
otherwise the mic and speaker subprocesses are terminated and their handles
cleared, the socket is closed and cleared, and readiness is cleared. -/
def disconnect (s : Agent) : Agent :=
  if s.running = false then s
  else { s with running := false, mic_proc := false, speaker_proc := false,
                ws := false, ready := false }

/-- All resources released: no mic process, no speaker process, no socket,
running flag down, readiness cleared. -/
def released (s : Agent) : Prop :=
  s.mic_proc = false ∧ s.speaker_proc = false ∧ s.ws = false ∧
  s.running = false ∧ s.ready = false

/-- VoiceAgent.inject_user_message: sends only while the socket is held and
the client is running. -/
def inject_user_message (s : Agent) (msg : String) : Agent :=
  if s.ws = true ∧ s.running = true then { s with injected := s.injected ++ [msg] }
  else s

/-- VoiceAgent.silence_agent (lines 179-215): bump the sequence number, kill
and restart the speaker pipe, clear the output buffer, and optionally
schedule a delayed injection that captures the bumped sequence number.  The
scheduled task is returned explicitly (in the source it lives in a spawned
thread that sleeps for the fixed injection delay before running). -/
def silence_agent (s : Agent) (then_inject : Option String) :
    Agent × Option (Nat × String) :=
  let seq := s.silence_seq + 1
  ({ s with silence_seq := seq, speaker_proc := true, output_buffer := [] },
   then_inject.map fun msg => (seq, msg))

/-- The body of the delayed injection task: a task whose captured sequence
number no longer matches the live one returns without doing anything. -/
def delayed_inject (s : Agent) (task : Nat × String) : Agent :=
  if s.silence_seq ≠ task.1 then s else inject_user_message s task.2

/-- A fully connected client, for concrete instantiations. -/
def connected_agent : Agent :=
  { running := true, mic_proc := true, speaker_proc := true, ws := true,
    ready := true, silence_seq := 0, input_enabled := false, paused := false,
    output_suppress_until := 0, output_buffer := [], injected := [] }

/-- C6: disconnect is idempotent, calling it before connect ever completed
leaves all resources released, and calling it on a running client releases
the mic process, speaker process and socket, lowers the running flag and
clears readiness.  Totality of the Lean function mirrors the source, where
every pipe close and terminate is wrapped so the method cannot raise. -/
theorem claim_C6 :
    (∀ s : Agent, disconnect (disconnect s) = disconnect s) ∧
    released (disconnect init_agent) ∧
    (∀ s : Agent, s.running = true → released (disconnect s)) := by
  refine ⟨fun s => ?_, ⟨rfl, rfl, rfl, rfl, rfl⟩, fun s h => ?_⟩
  · by_cases h : s.running = false
    · simp [disconnect, h]
    · simp [disconnect, h]
  · simp [disconnect, h, released]

/-- Witness for C6 on a concrete fully-connected client. -/
theorem claim_C6_witness :
    connected_agent.running = true ∧ released (disconnect connected_agent) :=
  ⟨rfl, claim_C6.2.2 _ rfl⟩

/-- Three silence_agent calls in a row, each with its own follow-up
injection, before any of the delayed tasks has run. -/
def silence3 (s : Agent) (m1 m2 m3 : String) : Agent :=
  (silence_agent (silence_agent (silence_agent s (some m1)).1 (some m2)).1 (some m3)).1

/-- C3: three rapid silence_agent calls with three different follow-up
injections send exactly one injection, the one attached to the last call;
each earlier call observes a stale sequence number and performs nothing.
The tasks all run after the three calls because the calls happen within the
fixed injection delay. -/
theorem claim_C3 (s : Agent) (m1 m2 m3 : String)
    (hws : s.ws = true) (hrun : s.running = true) :
    let s3 := silence3 s m1 m2 m3
    let task1 := (silence_agent s (some m1)).2
    let task2 := (silence_agent (silence_agent s (some m1)).1 (some m2)).2
    let task3 := (silence_agent (silence_agent (silence_agent s (some m1)).1 (some m2)).1 (some m3)).2
    task1 = some (s.silence_seq + 1, m1) ∧
    task2 = some (s.silence_seq + 2, m2) ∧
    task3 = some (s.silence_seq + 3, m3) ∧
    delayed_inject s3 (s.silence_seq + 1, m1) = s3 ∧
    delayed_inject s3 (s.silence_seq + 2, m2) = s3 ∧
    (delayed_inject (delayed_inject (delayed_inject s3 (s.silence_seq + 1, m1))
        (s.silence_seq + 2, m2)) (s.silence_seq + 3, m3)).injected
      = s.injected ++ [m3] := by
  have hseq : (silence3 s m1 m2 m3).silence_seq = s.silence_seq + 3 := by
    simp [silence3, silence_agent]
  have hws3 : (silence3 s m1 m2 m3).ws = s.ws := by
    simp [silence3, silence_agent]
  have hrun3 : (silence3 s m1 m2 m3).running = s.running := by
    simp [silence3, silence_agent]
  have hinj3 : (silence3 s m1 m2 m3).injected = s.injected := by
    simp [silence3, silence_agent]
  have h1 : delayed_inject (silence3 s m1 m2 m3) (s.silence_seq + 1, m1)
      = silence3 s m1 m2 m3 := by
    unfold delayed_inject
    rw [if_pos (by rw [hseq]; omega)]
  have h2 : delayed_inject (silence3 s m1 m2 m3) (s.silence_seq + 2, m2)
      = silence3 s m1 m2 m3 := by
    unfold delayed_inject
    rw [if_pos (by rw [hseq]; omega)]
  refine ⟨rfl, rfl, rfl, h1, h2, ?_⟩
  rw [h1, h2]
  unfold delayed_inject
  rw [if_neg (by rw [hseq]; omega)]
  unfold inject_user_message
  rw [if_pos ⟨by rw [hws3, hws], by rw [hrun3, hrun]⟩, hinj3]

/-- Witness for C3 on a concrete connected client and three concrete
follow-up messages. -/
theorem claim_C3_witness :
    connected_agent.ws = true ∧
    (delayed_inject (delayed_inject (delayed_inject
        (silence3 connected_agent "a" "b" "c") (0 + 1, "a"))
        (0 + 2, "b")) (0 + 3, "c")).injected = [] ++ ["c"] := by
  refine ⟨rfl, ?_⟩
  have h := claim_C3 connected_agent "a" "b" "c" rfl rfl
  exact h.2.2.2.2.2

end OldAgent

/-! ## Function-call dispatch (VoiceAgent._handle_function_call)

Identical in src/services/voice_agent.py lines 439-477 and
src/newApp/services/voice_agent.py lines 466-504.  A FunctionCallRequest
carries one or more function entries; each entry's name and id are read with
a fallback key, the arguments are normalized (a JSON string is parsed,
falling back to the empty object on parse failure), the external tool
executor is invoked inside a try/except, and a FunctionCallResponse with the
call's id, name and content is sent.  The tool executor is a parameter:
returning Except models its normal results and its raised exceptions, and the
handler being a total Lean function into a response list models that no tool
exception escapes the dispatch boundary.  JSON parsing of the argument
string is likewise a parameter. -/

namespace ToolCall

/-- A JSON-object argument mapping. -/
def Args := List (String × String)

/-- The arguments field as it arrives on the wire: a JSON string or a
pre-parsed object. -/
inductive ArgVal where
  | str (s : String)
  | obj (o : Args)

/-- One entry of a FunctionCallRequest; each field may be absent. -/
structure FuncReq where
  name : Option String
  function_name : Option String
  id : Option String
  function_call_id : Option String
  arguments : Option ArgVal
  input : Option ArgVal

structure FuncResp where
  id : String
  name : String
  content : String

/-- func.get("name", func.get("function_name", "")). -/
def func_name (f : FuncReq) : String := f.name.getD (f.function_name.getD "")

/-- func.get("id", func.get("function_call_id", "")). -/
def func_id (f : FuncReq) : String := f.id.getD (f.function_call_id.getD "")

/-- func.get("arguments", func.get("input", "{}")) followed by json.loads
normalization with fallback to the empty object. -/
def func_args (parse : String → Option Args) (f : FuncReq) : Args :=
  match f.arguments.getD (f.input.getD (ArgVal.str "{}")) with
  | ArgVal.str s => (parse s).getD []
  | ArgVal.obj o => o

/-- The try/except around execute_tool: an exception is converted into the
error-text result. -/
def run_tool (exec : String → Args → Except String String)
    (name : String) (args : Args) : String :=
  match exec name args with
  | Except.ok r => r
  | Except.error e => "Error executing " ++ name ++ ": " ++ e

/-- VoiceAgent._handle_function_call: one response per function entry. -/
def handle_function_call (parse : String → Option Args)
    (exec : String → Args → Except String String)
    (funcs : List FuncReq) : List FuncResp :=
  funcs.map fun f =>
    { id := func_id f, name := func_name f,
      content := run_tool exec (func_name f) (func_args parse f) }

/-- C9: for every inbound function-call entry a response carrying the call's
id and name is produced, even when the tool executor raises; the raised
exception is converted into the textual error result rather than propagated
(the handler is total and yields exactly one response per entry). -/
theorem claim_C9 (parse : String → Option Args)
    (exec : String → Args → Except String String) (funcs : List FuncReq) :
    (handle_function_call parse exec funcs).length = funcs.length ∧
    ∀ i (hi : i < funcs.length),
      ∃ hr : i < (handle_function_call parse exec funcs).length,
        ((handle_function_call parse exec funcs).get ⟨i, hr⟩).id
            = func_id (funcs.get ⟨i, hi⟩) ∧
        ((handle_function_call parse exec funcs).get ⟨i, hr⟩).name
            = func_name (funcs.get ⟨i, hi⟩) ∧
        (∀ e, exec (func_name (funcs.get ⟨i, hi⟩))
                (func_args parse (funcs.get ⟨i, hi⟩)) = Except.error e →
          ((handle_function_call parse exec funcs).get ⟨i, hr⟩).content
            = "Error executing " ++ func_name (funcs.get ⟨i, hi⟩) ++ ": " ++ e) ∧
        (∀ r, exec (func_name (funcs.get ⟨i, hi⟩))
                (func_args parse (funcs.get ⟨i, hi⟩)) = Except.ok r →
          ((handle_function_call parse exec funcs).get ⟨i, hr⟩).content = r) := by
  constructor
  · simp [handle_function_call]
  · intro i hi
    have hr : i < (handle_function_call parse exec funcs).length := by
      simpa [handle_function_call] using hi
    refine ⟨hr, ?_, ?_, ?_, ?_⟩
    · simp [handle_function_call]
    · simp [handle_function_call]
    · intro e he
      simp only [List.get_eq_getElem] at he
      simp only [handle_function_call, run_tool, List.get_eq_getElem, List.getElem_map]
      rw [he]
    · intro r hrr
      simp only [List.get_eq_getElem] at hrr
      simp only [handle_function_call, run_tool, List.get_eq_getElem, List.getElem_map]
      rw [hrr]

/-- A concrete request entry for instantiation. -/
def example_req : FuncReq :=
  { name := some "play_song", function_name := none, id := some "call-1",
    function_call_id := none, arguments := none, input := none }

/-- Witness for C9: a single call whose executor always raises still yields
the correlated error-text response. -/
theorem claim_C9_witness :
    (0 : Nat) < [example_req].length ∧
    (handle_function_call (fun _ => none)
        (fun _ _ => Except.error "boom") [example_req]).length = 1 := by
  constructor
  · decide
  · have h := (claim_C9 (fun _ => none) (fun _ _ => Except.error "boom")
      [example_req]).1
    simpa using h

end ToolCall

/-! ## Epoch-guarded session state machine (src/core/state_machine.py)

VoiceAgentStateMachine keeps a monotone epoch counter; _start_timer captures
the epoch at creation time and wraps the callback in a guard that bails when
the epoch has moved or the machine stopped; _set_state bumps the epoch and
cancels the pending timer slot before dispatching the new state's entry
handler.  Display updates, button-handler wiring and the agent object are
out-of-scope side effects and are not part of this record; the entry
handlers' timer effects are kept. -/

namespace EpochSM

inductive SName where
  | idle | active | game | music | asleep
  deriving DecidableEq

/-- The two callbacks the machine ever stores in its timer slot. -/
inductive TimerKind where
  | idleTimeout | idleSleep
  deriving DecidableEq

structure Machine where
  state : SName
  epoch : Nat
  running : Bool
  holding : Bool
  /-- The _idle_timer slot: the epoch captured at creation plus the callback. -/
  idle_timer : Option (Nat × TimerKind)
  deriving DecidableEq

/-- The guard _start_timer wraps around every callback: under the lock, a
fired timer runs its callback body only when the machine still runs and the
live epoch equals the epoch captured at scheduling time. -/
def fire_guarded (m : Machine) (my_epoch : Nat) (callback : Machine → Machine) : Machine :=
  if m.epoch = my_epoch ∧ m.running = true then callback m else m

/-- _start_timer stores the current epoch with the callback (the slot write
at the call sites of _start_timer). -/
def start_timer (m : Machine) (k : TimerKind) : Machine :=
  { m with idle_timer := some (m.epoch, k) }

/-- _touch_activity / _restart_idle_timer: cancel the slot and start a fresh
idle-timeout timer. -/
def touch_activity (m : Machine) : Machine := start_timer m TimerKind.idleTimeout

def enter_idle (m : Machine) : Machine := start_timer m TimerKind.idleSleep

def enter_active (m : Machine) : Machine := touch_activity m

def enter_game (m : Machine) : Machine := m

def enter_music (m : Machine) : Machine := touch_activity m

def enter_asleep (m : Machine) : Machine := { m with holding := false }

def entry_action : SName → Machine → Machine
  | SName.idle => enter_idle
  | SName.active => enter_active
  | SName.game => enter_game
  | SName.music => enter_music
  | SName.asleep => enter_asleep

/-- _set_state (lines 205-226): bump the epoch, cancel all pending timers,
then run the new state's entry handler. -/
def set_state (m : Machine) (ns : SName) : Machine :=
  entry_action ns { m with state := ns, epoch := m.epoch + 1, idle_timer := none }

/-- Dispatch of a stored timer through the guard (the timer thread firing). -/
def fire_idle_timer (m : Machine) : Machine :=
  match m.idle_timer with
  | none => m
  | some (e, TimerKind.idleTimeout) =>
      fire_guarded m e fun n => if n.state = SName.active then set_state n SName.asleep else n
  | some (e, TimerKind.idleSleep) =>
      fire_guarded m e fun n => if n.state = SName.idle then set_state n SName.asleep else n

/-- C1: a timer scheduled in epoch e whose guard observes a different live
epoch, or a stopped machine, does not execute its callback body (the machine
is returned untouched for every callback); and every state transition
increments the epoch by one and clears the pending timer slot before the new
state's entry actions run. -/
theorem claim_C1 :
    (∀ (m : Machine) (e : Nat) (callback : Machine → Machine),
        (m.epoch ≠ e ∨ m.running = false) → fire_guarded m e callback = m) ∧
    (∀ (m : Machine) (ns : SName), ∃ mid : Machine,
        mid.epoch = m.epoch + 1 ∧ mid.idle_timer = none ∧ mid.state = ns ∧
        set_state m ns = entry_action ns mid) := by
  constructor
  · intro m e callback h
    unfold fire_guarded
    rcases h with h | h
    · rw [if_neg]
      rintro ⟨h1, _⟩
      exact h h1
    · rw [if_neg]
      rintro ⟨_, h2⟩
      rw [h] at h2
      exact Bool.false_ne_true h2
  · intro m ns
    exact ⟨{ m with state := ns, epoch := m.epoch + 1, idle_timer := none },
      rfl, rfl, rfl, rfl⟩

/-- A concrete machine state for instantiation: epoch already advanced past
a timer captured at epoch 1. -/
def machine_ex : Machine :=
  { state := SName.active, epoch := 2, running := true, holding := false,
    idle_timer := none }

/-- Witness for C1: a stale timer (captured epoch 1, live epoch 2) leaves
the machine untouched even for a callback that would rewrite the epoch. -/
theorem claim_C1_witness :
    (machine_ex.epoch ≠ 1 ∨ machine_ex.running = false) ∧
    fire_guarded machine_ex 1 (fun n => { n with epoch := 99 }) = machine_ex :=
  ⟨Or.inl (by decide), claim_C1.1 machine_ex 1 _ (Or.inl (by decide))⟩

end EpochSM

/-! ## Protocol client, newApp (src/newApp/services/voice_agent.py)

The echo-suppression and double-response machinery.  Timestamps are integer
milliseconds; audio chunks are lists of signed 16-bit samples (the source
reads 1600-byte chunks, 800 samples).  unmute_at = 0 encodes "no pending
unmute", matching the Python truthiness check on _unmute_at.  gate_until is
a local variable of the sender loop that persists across iterations, so it
lives in the state record.  The wire and the speaker pipe are modeled by the
lists of frames sent and chunks played; emitted UI events are logged.
Subprocess restart logic and byte counters are out-of-scope I/O. -/

namespace NewAgent

inductive Event where
  | user_speaking | agent_speaking | agent_audio_done
  deriving DecidableEq

inductive Msg where
  | userStartedSpeaking | agentStartedSpeaking | agentAudioDone
  deriving DecidableEq

structure Client where
  mic_muted : Bool
  unmute_at : Nat
  gate_until : Nat
  agent_spoke : Bool
  dropping_turn : Bool
  force_listen : Bool
  sent : List (List Int)
  played : List (List Int)
  events : List Event
  deriving DecidableEq

/-- The state after VoiceAgent.__init__ (plus a fresh sender loop). -/
def init_client : Client :=
  { mic_muted := false, unmute_at := 0, gate_until := 0, agent_spoke := false,
    dropping_turn := false, force_listen := false, sent := [], played := [],
    events := [] }

def MIC_CHUNK_SAMPLES : Nat := 800

/-- The all-zero silence frame sent in place of real mic audio. -/
def SILENCE : List Int := List.replicate MIC_CHUNK_SAMPLES 0

def ECHO_GATE_RMS : Nat := 800

/-- _ECHO_GATE_DURATION = 3.0 s, in ms. -/
def ECHO_GATE_DURATION : Nat := 3000

/-- The fixed unmute delay scheduled on AgentAudioDone (2.0 s), in ms. -/
def UNMUTE_DELAY : Nat := 2000

/-- VoiceAgent._rms: integer-truncated root mean square of the samples.
int(sqrt(x)) over the float mean equals the floor square root of the floor
mean, which this reproduces with Nat division and Nat.sqrt. -/
def rms (chunk : List Int) : Nat :=
  if chunk.length = 0 then 0
  else Nat.sqrt ((chunk.map fun x => x.natAbs * x.natAbs).sum / chunk.length)

/-- One iteration of VoiceAgent._send_loop (lines 260-300) on a mic chunk
read at time now: check whether it is time to unmute (opening the energy
gate), then substitute silence while hard-muted, gate by RMS inside the gate
window, and send. -/
def send_chunk (s : Client) (now : Nat) (chunk : List Int) : Client :=
  let s :=
    if s.mic_muted = true ∧ s.unmute_at ≠ 0 ∧ s.unmute_at ≤ now then
      { s with mic_muted := false, unmute_at := 0,
               gate_until := now + ECHO_GATE_DURATION }
    else s
  let out :=
    if s.mic_muted = true then SILENCE
    else if now < s.gate_until then
      (if rms chunk < ECHO_GATE_RMS then SILENCE else chunk)
    else chunk
  { s with sent := s.sent ++ [out] }

/-- The sender loop over a sequence of (read time, chunk) mic frames. -/
def send_frames (s : Client) (fs : List (Nat × List Int)) : Client :=
  fs.foldl (fun s f => send_chunk s f.1 f.2) s

/-- VoiceAgent._handle_audio (lines 335-376): inbound agent audio is
discarded while a turn is being dropped or force-listen is on; otherwise it
is written to the speaker pipe. -/
def handle_audio (s : Client) (data : List Int) : Client :=
  if s.dropping_turn = true ∨ s.force_listen = true then s
  else { s with played := s.played ++ [data] }

/-- VoiceAgent._handle_message (lines 378-464), restricted to the three
message types that drive the mute/turn flags; the remaining types only log
or forward display events and touch none of these fields. -/
def handle_message (s : Client) (now : Nat) (m : Msg) : Client :=
  match m with
  | Msg.userStartedSpeaking =>
      { s with agent_spoke := false, dropping_turn := false, mic_muted := false,
               events := s.events ++ [Event.user_speaking] }
  | Msg.agentStartedSpeaking =>
      if s.force_listen = true then { s with dropping_turn := true }
      else if s.agent_spoke = true then { s with dropping_turn := true }
      else { s with dropping_turn := false, agent_spoke := true,
                    mic_muted := true, unmute_at := 0,
                    events := s.events ++ [Event.agent_speaking] }
  | Msg.agentAudioDone =>
      if s.dropping_turn = true then { s with dropping_turn := false }
      else { s with unmute_at := now + UNMUTE_DELAY,
                    events := s.events ++ [Event.agent_audio_done] }

/-! ### Sender-loop lemmas -/

theorem send_chunk_muted_zero (s : Client) (now : Nat) (chunk : List Int)
    (hm : s.mic_muted = true) (hu : s.unmute_at = 0) :
    send_chunk s now chunk = { s with sent := s.sent ++ [SILENCE] } := by
  simp [send_chunk, hm, hu]

theorem send_frames_muted_zero (s : Client) (fs : List (Nat × List Int))
    (hm : s.mic_muted = true) (hu : s.unmute_at = 0) :
    send_frames s fs = { s with sent := s.sent ++ fs.map fun _ => SILENCE } := by
  induction fs generalizing s with
  | nil => simp [send_frames]
  | cons f fs ih =>
    have hstep : send_frames s (f :: fs) = send_frames (send_chunk s f.1 f.2) fs := rfl
    rw [hstep, send_chunk_muted_zero s f.1 f.2 hm hu,
        ih { s with sent := s.sent ++ [SILENCE] } hm hu]
    simp

theorem send_chunk_muted_before (s : Client) (now : Nat) (chunk : List Int)
    (hm : s.mic_muted = true) (hu : s.unmute_at ≠ 0) (hlt : now < s.unmute_at) :
    send_chunk s now chunk = { s with sent := s.sent ++ [SILENCE] } := by
  have hc2 : ¬ s.unmute_at ≤ now := by omega
  simp [send_chunk, hm, hc2]

theorem send_frames_muted_before (s : Client) (fs : List (Nat × List Int))
    (hm : s.mic_muted = true) (hu : s.unmute_at ≠ 0)
    (hts : ∀ p ∈ fs, p.1 < s.unmute_at) :
    send_frames s fs = { s with sent := s.sent ++ fs.map fun _ => SILENCE } := by
  induction fs generalizing s with
  | nil => simp [send_frames]
  | cons f fs ih =>
    have hstep : send_frames s (f :: fs) = send_frames (send_chunk s f.1 f.2) fs := rfl
    rw [hstep, send_chunk_muted_before s f.1 f.2 hm hu (hts f (by simp)),
        ih { s with sent := s.sent ++ [SILENCE] } hm hu
          (fun p hp => hts p (by simp [hp]))]
    simp

theorem send_chunk_unmuted (s : Client) (now : Nat) (chunk : List Int)
    (hm : s.mic_muted = false) :
    send_chunk s now chunk
      = { s with sent := s.sent ++
            [if now < s.gate_until then
               (if rms chunk < ECHO_GATE_RMS then SILENCE else chunk)
             else chunk] } := by
  simp [send_chunk, hm]

theorem send_frames_unmuted (s : Client) (fs : List (Nat × List Int))
    (hm : s.mic_muted = false) :
    send_frames s fs
      = { s with sent := s.sent ++
            fs.map fun p =>
              if p.1 < s.gate_until then
                (if rms p.2 < ECHO_GATE_RMS then SILENCE else p.2)
              else p.2 } := by
  induction fs generalizing s with
  | nil => simp [send_frames]
  | cons f fs ih =>
    have hstep : send_frames s (f :: fs) = send_frames (send_chunk s f.1 f.2) fs := rfl
    rw [hstep, send_chunk_unmuted s f.1 f.2 hm,
        ih { s with sent := s.sent ++
          [if f.1 < s.gate_until then
             (if rms f.2 < ECHO_GATE_RMS then SILENCE else f.2)
           else f.2] } hm]
    simp

theorem send_chunk_unmute_now (s : Client) (now : Nat) (chunk : List Int)
    (hm : s.mic_muted = true) (hu : s.unmute_at ≠ 0) (hle : s.unmute_at ≤ now) :
    send_chunk s now chunk
      = { s with mic_muted := false, unmute_at := 0,
                 gate_until := now + ECHO_GATE_DURATION,
                 sent := s.sent ++
                   [if rms chunk < ECHO_GATE_RMS then SILENCE else chunk] } := by
  have hgate : now < now + ECHO_GATE_DURATION := by
    simp only [ECHO_GATE_DURATION]
    omega
  simp [send_chunk, hm, hu, hle, hgate]

/-! ### C2: the three-layer echo defense over a synthetic inbound sequence -/

/-- C2 (amended): over the inbound sequence agent-started-speaking, N mic
frames, agent-audio-done (no force-listen, turn not dropped), every mic
frame sent during the speaking window and during the fixed 2-second drain
delay after agent-audio-done is the all-zero silence frame; frames after the
drain delay but within the 3-second energy-gate window are silence exactly
when their RMS is strictly below the threshold (800) — equivalently they
pass through unchanged when their RMS is at least 800, not only when it
strictly exceeds 800; frames after the gate window pass through unchanged.
The gate window opens at the read time tf of the first frame at or past the
drain deadline, as in the sender loop. -/
theorem claim_C2 (s0 : Client) (t0 t1 tf : Nat)
    (as bs cs : List (Nat × List Int)) (c0 : List Int)
    (hfl : s0.force_listen = false) (hsp : s0.agent_spoke = false)
    (hdr : s0.dropping_turn = false)
    (hbs : ∀ p ∈ bs, p.1 < t1 + UNMUTE_DELAY)
    (htf : t1 + UNMUTE_DELAY ≤ tf) :
    (send_frames (send_frames (handle_message (send_frames (handle_message s0 t0
        Msg.agentStartedSpeaking) as) t1 Msg.agentAudioDone) bs)
        ((tf, c0) :: cs)).sent
      = s0.sent ++ (as.map fun _ => SILENCE) ++ (bs.map fun _ => SILENCE)
          ++ (if rms c0 < ECHO_GATE_RMS then SILENCE else c0)
            :: cs.map fun p =>
                 if p.1 < tf + ECHO_GATE_DURATION then
                   (if rms p.2 < ECHO_GATE_RMS then SILENCE else p.2)
                 else p.2 := by
  set S1 := handle_message s0 t0 Msg.agentStartedSpeaking with hS1
  set S2 := send_frames S1 as with hS2
  set S3 := handle_message S2 t1 Msg.agentAudioDone with hS3
  set S4 := send_frames S3 bs with hS4
  have f1 : S1 = { s0 with
      dropping_turn := false, agent_spoke := true,
      mic_muted := true, unmute_at := 0,
      events := s0.events ++ [Event.agent_speaking] } := by
    rw [hS1]
    simp [handle_message, hfl, hsp]
  have f2 : S2 = { S1 with sent := S1.sent ++ (as.map fun _ => SILENCE) } := by
    rw [hS2]
    exact send_frames_muted_zero S1 as (by simp [f1]) (by simp [f1])
  have f3 : S3 = { S2 with
      unmute_at := t1 + UNMUTE_DELAY,
      events := S2.events ++ [Event.agent_audio_done] } := by
    rw [hS3]
    have hd : S2.dropping_turn = false := by simp [f2, f1]
    simp [handle_message, hd]
  have hu3 : S3.unmute_at = t1 + UNMUTE_DELAY := by simp [f3]
  have hu3n : S3.unmute_at ≠ 0 := by
    rw [hu3]
    simp only [UNMUTE_DELAY]
    omega
  have f4 : S4 = { S3 with sent := S3.sent ++ (bs.map fun _ => SILENCE) } := by
    rw [hS4]
    refine send_frames_muted_before S3 bs (by simp [f3, f2, f1]) hu3n ?_
    rw [hu3]
    exact hbs
  have hm4 : S4.mic_muted = true := by simp [f4, f3, f2, f1]
  have hu4 : S4.unmute_at = t1 + UNMUTE_DELAY := by simp [f4, hu3]
  have hu4n : S4.unmute_at ≠ 0 := by
    rw [hu4]
    simp only [UNMUTE_DELAY]
    omega
  have hle4 : S4.unmute_at ≤ tf := by
    rw [hu4]
    exact htf
  have hstep : send_frames S4 ((tf, c0) :: cs)
      = send_frames (send_chunk S4 tf c0) cs := rfl
  have f5 : send_chunk S4 tf c0
      = { S4 with
          mic_muted := false, unmute_at := 0,
          gate_until := tf + ECHO_GATE_DURATION,
          sent := S4.sent ++ [if rms c0 < ECHO_GATE_RMS then SILENCE else c0] } :=
    send_chunk_unmute_now S4 tf c0 hm4 hu4n hle4
  have hg : (send_chunk S4 tf c0).gate_until = tf + ECHO_GATE_DURATION := by
    simp [f5]
  have f6 : send_frames (send_chunk S4 tf c0) cs
      = { send_chunk S4 tf c0 with
          sent := (send_chunk S4 tf c0).sent ++
            cs.map fun p =>
              if p.1 < (send_chunk S4 tf c0).gate_until then
                (if rms p.2 < ECHO_GATE_RMS then SILENCE else p.2)
              else p.2 } :=
    send_frames_unmuted (send_chunk S4 tf c0) cs (by simp [f5])
  rw [hstep, f6]
  simp only [hg]
  rw [f5]
  simp [f4, f3, f2, f1, List.append_assoc]

/-- A frame of 800 samples of constant amplitude 800: its RMS is exactly the
gate threshold. -/
def cx_chunk : List Int := List.replicate 800 800

theorem rms_cx_chunk : rms cx_chunk = 800 := by
  have hlen : cx_chunk.length = 800 := by simp [cx_chunk]
  have hmap : (cx_chunk.map fun x => x.natAbs * x.natAbs)
      = List.replicate 800 640000 := by
    simp [cx_chunk, List.map_replicate]
  unfold rms
  rw [if_neg (by simp [hlen]), hmap, hlen, List.sum_replicate, smul_eq_mul,
      show (800 * 640000 : Nat) / 800 = 800 * 800 by norm_num, Nat.sqrt_eq]

/-- C2 counterexample to the claim as stated: a frame arriving strictly after
the drain delay, inside the energy-gate window, whose RMS equals the
threshold (so does not exceed it), is sent through unchanged rather than
replaced by silence. -/
theorem claim_C2_counterexample :
    rms cx_chunk = ECHO_GATE_RMS ∧
    ¬ ECHO_GATE_RMS < rms cx_chunk ∧
    (send_chunk (handle_message (handle_message init_client 0
        Msg.agentStartedSpeaking) 1000 Msg.agentAudioDone) 3500 cx_chunk).sent
      = [cx_chunk] ∧
    cx_chunk ≠ SILENCE := by
  have h1 : handle_message init_client 0 Msg.agentStartedSpeaking
      = { init_client with
          dropping_turn := false, agent_spoke := true,
          mic_muted := true, unmute_at := 0,
          events := [Event.agent_speaking] } := by
    simp [handle_message, init_client]
  have h2 : handle_message (handle_message init_client 0
      Msg.agentStartedSpeaking) 1000 Msg.agentAudioDone
      = { init_client with
          dropping_turn := false, agent_spoke := true,
          mic_muted := true, unmute_at := 1000 + UNMUTE_DELAY,
          events := [Event.agent_speaking, Event.agent_audio_done] } := by
    rw [h1]
    simp [handle_message]
  have h3 := send_chunk_unmute_now (handle_message (handle_message init_client 0
      Msg.agentStartedSpeaking) 1000 Msg.agentAudioDone) 3500 cx_chunk
      (by rw [h2]) (by rw [h2]; simp [UNMUTE_DELAY]) (by rw [h2]; simp [UNMUTE_DELAY])
  have hrms : ¬ rms cx_chunk < ECHO_GATE_RMS := by
    rw [rms_cx_chunk]
    simp [ECHO_GATE_RMS]
  refine ⟨by rw [rms_cx_chunk]; rfl, by rw [rms_cx_chunk]; simp [ECHO_GATE_RMS], ?_, ?_⟩
  · rw [h3, h2]
    simp [hrms, init_client]
  · intro h
    have hhead := congrArg List.head? h
    simp [cx_chunk, SILENCE, MIC_CHUNK_SAMPLES] at hhead

theorem rms_loud : rms [900, 900, 900, 900] = 900 := by
  have h : (([900, 900, 900, 900] : List Int).map fun x => x.natAbs * x.natAbs).sum
      / ([900, 900, 900, 900] : List Int).length = 810000 := by decide
  unfold rms
  rw [if_neg (by decide), h, show (810000 : Nat) = 900 * 900 by norm_num, Nat.sqrt_eq]

theorem rms_quiet : rms [0, 0] = 0 := by
  have h : (([0, 0] : List Int).map fun x => x.natAbs * x.natAbs).sum
      / ([0, 0] : List Int).length = 0 := by decide
  unfold rms
  rw [if_neg (by decide), h, show (0 : Nat) = 0 * 0 by norm_num, Nat.sqrt_eq]

/-- Witness for C2 on a concrete run: one frame during the speaking window,
none during the drain, then a loud frame opening the gate at 3000 ms, a
quiet frame inside the gate window and a quiet frame after it. -/
theorem claim_C2_witness :
    1000 + UNMUTE_DELAY ≤ 3000 ∧
    (send_frames (send_frames (handle_message (send_frames (handle_message
        init_client 0 Msg.agentStartedSpeaking) [(5, [7])]) 1000
        Msg.agentAudioDone) []) ((3000, [900, 900, 900, 900]) ::
        [(4000, [0, 0]), (7000, [3])])).sent
      = [SILENCE, [900, 900, 900, 900], SILENCE, [3]] := by
  refine ⟨by decide, ?_⟩
  have h := claim_C2 init_client 0 1000 3000 [(5, [7])] []
    [(4000, [0, 0]), (7000, [3])] [900, 900, 900, 900]
    rfl rfl rfl (by simp) (by decide)
  rw [h]
  simp [init_client, rms_loud, rms_quiet, ECHO_GATE_RMS, ECHO_GATE_DURATION]

/-! ### C4: the double-response guard -/

theorem handle_audio_dropping_fold (t : Client) (chunks : List (List Int))
    (hd : t.dropping_turn = true) : chunks.foldl handle_audio t = t := by
  induction chunks generalizing t with
  | nil => rfl
  | cons c cs ih =>
    have h1 : handle_audio t c = t := by simp [handle_audio, hd]
    show cs.foldl handle_audio (handle_audio t c) = t
    rw [h1, ih t hd]

/-- C4: a second AgentStartedSpeaking with no intervening UserStartedSpeaking
(agent_spoke still set) raises the dropping-turn flag and emits no
agent_speaking event; every inbound audio chunk of that turn is discarded
(nothing is written to the speaker); that turn's AgentAudioDone clears the
flag without emitting an event; and nothing of the dropped turn can be
replayed later: the speaker log is unchanged across the whole turn and a
later chunk appends only itself. -/
theorem claim_C4 (s : Client) (now now2 : Nat) (chunks : List (List Int))
    (hsp : s.agent_spoke = true) (hdr : s.dropping_turn = false)
    (hfl : s.force_listen = false) :
    (handle_message s now Msg.agentStartedSpeaking).dropping_turn = true ∧
    (handle_message s now Msg.agentStartedSpeaking).events = s.events ∧
    (chunks.foldl handle_audio (handle_message s now
        Msg.agentStartedSpeaking)).played = s.played ∧
    (handle_message (chunks.foldl handle_audio (handle_message s now
        Msg.agentStartedSpeaking)) now2 Msg.agentAudioDone).dropping_turn = false ∧
    (handle_message (chunks.foldl handle_audio (handle_message s now
        Msg.agentStartedSpeaking)) now2 Msg.agentAudioDone).events = s.events ∧
    (handle_message (chunks.foldl handle_audio (handle_message s now
        Msg.agentStartedSpeaking)) now2 Msg.agentAudioDone).played = s.played ∧
    ∀ d, (handle_audio (handle_message (chunks.foldl handle_audio
        (handle_message s now Msg.agentStartedSpeaking)) now2
        Msg.agentAudioDone) d).played = s.played ++ [d] := by
  have h1 : handle_message s now Msg.agentStartedSpeaking
      = { s with dropping_turn := true } := by
    simp [handle_message, hfl, hsp]
  have h2 : chunks.foldl handle_audio (handle_message s now Msg.agentStartedSpeaking)
      = handle_message s now Msg.agentStartedSpeaking :=
    handle_audio_dropping_fold _ chunks (by simp [h1])
  have h3 : handle_message (chunks.foldl handle_audio (handle_message s now
      Msg.agentStartedSpeaking)) now2 Msg.agentAudioDone
      = { handle_message s now Msg.agentStartedSpeaking with
          dropping_turn := false } := by
    rw [h2]
    simp [handle_message, hfl, hsp]
  refine ⟨?_, ?_, ?_, ?_, ?_, ?_, fun d => ?_⟩
  · rw [h1]
  · rw [h1]
  · rw [h2, h1]
  · rw [h3]
  · rw [h3, h1]
  · rw [h3, h1]
  · rw [h3, h1]
    simp [handle_audio, hfl]

/-- A client whose agent has already spoken since the last user utterance. -/
def spoke_client : Client := { init_client with agent_spoke := true }

/-- Witness for C4 on a concrete dropped turn with two audio chunks. -/
theorem claim_C4_witness :
    spoke_client.agent_spoke = true ∧
    (handle_message (([[1], [2]] : List (List Int)).foldl handle_audio
        (handle_message spoke_client 0 Msg.agentStartedSpeaking)) 7
        Msg.agentAudioDone).played = spoke_client.played :=
  ⟨rfl, (claim_C4 spoke_client 0 7 [[1], [2]] rfl rfl rfl).2.2.2.2.2.1⟩

end NewAgent

/-! ## Button gesture classification in Active
(src/newApp/core/state_machine.py lines 277-341)

_on_button_press_active classifies a press as a double-click when it falls
within DOUBLE_CLICK_SEC of the last release (which records
_last_click_time); otherwise it arms the 2-second pause-hold timer and the
5-second long-press timer.  _on_button_release_active cancels both timers
and records the click time.  Times are integer milliseconds.  Timers are
modeled by their absolute deadlines; a pending timer whose deadline has been
reached fires before the external edge arriving at that instant is handled
(threading.Timer makes the callback runnable once its interval has elapsed,
so a cancel issued at exactly the deadline comes too late).  Gesture
classifications are logged through the actions that run: the double-click
branch, _on_pause_hold and _on_long_press_active.  Display updates and
agent calls are out-of-scope side effects. -/

namespace Gesture

inductive Gest where
  | doubleClick | pauseHold | longPress
  deriving DecidableEq

def DOUBLE_CLICK_MS : Nat := 400
def PAUSE_HOLD_MS : Nat := 2000
def LONG_PRESS_MS : Nat := 5000
def RESPONSE_DELAY_MS : Nat := 1000

structure BtnState where
  last_click_time : Nat
  button_press_time : Nat
  holding : Bool
  paused : Bool
  pause_timer : Option Nat
  long_press_timer : Option Nat
  response_delay_timer : Option Nat
  gestures : List Gest
  deriving DecidableEq

/-- The state after __init__. -/
def init_btn : BtnState :=
  { last_click_time := 0, button_press_time := 0, holding := false,
    paused := false, pause_timer := none, long_press_timer := none,
    response_delay_timer := none, gestures := [] }

/-- _toggle_pause, reduced to its state flip (its agent and display calls
are out of scope). -/
def toggle_pause (s : BtnState) : BtnState := { s with paused := !s.paused }

/-- _on_pause_hold: clear the slot, then toggle pause. -/
def on_pause_hold (s : BtnState) : BtnState :=
  toggle_pause { s with pause_timer := none, gestures := s.gestures ++ [Gest.pauseHold] }

/-- _on_long_press_active: ends the conversation; logged as the long-press
classification. -/
def on_long_press (s : BtnState) : BtnState :=
  { s with gestures := s.gestures ++ [Gest.longPress] }

/-- Fire any armed timer whose deadline has been reached, earliest first
(within one press the pause deadline always precedes the long-press one). -/
def fire_due (s : BtnState) (t : Nat) : BtnState :=
  let s :=
    match s.pause_timer with
    | some d => if d ≤ t then on_pause_hold { s with pause_timer := none } else s
    | none => s
  match s.long_press_timer with
  | some d => if d ≤ t then on_long_press { s with long_press_timer := none } else s
  | none => s

/-- _on_button_press_active at time t. -/
def on_button_press_active (s : BtnState) (t : Nat) : BtnState :=
  let s := { s with button_press_time := t, holding := true,
                    response_delay_timer := none }
  if t - s.last_click_time < DOUBLE_CLICK_MS then
    toggle_pause { s with last_click_time := 0, holding := false,
                          gestures := s.gestures ++ [Gest.doubleClick] }
  else
    let s := if s.paused = true then toggle_pause s else s
    { s with pause_timer := some (t + PAUSE_HOLD_MS),
             long_press_timer := some (t + LONG_PRESS_MS) }

/-- _on_button_release_active at time t. -/
def on_button_release_active (s : BtnState) (t : Nat) : BtnState :=
  let s := { s with long_press_timer := none, pause_timer := none,
                    holding := false, last_click_time := t }
  if s.paused = true then s
  else { s with response_delay_timer := some (t + RESPONSE_DELAY_MS) }

inductive Edge where
  | press | release

/-- Process one button edge at time t: due timers fire first. -/
def process (s : BtnState) (t : Nat) (e : Edge) : BtnState :=
  match e with
  | Edge.press => on_button_press_active (fire_due s t) t
  | Edge.release => on_button_release_active (fire_due s t) t

/-- C7: from a quiet Active state, press/release/press with the second press
within the double-click window classifies as a double-click, logs no hold
action, and leaves both hold timers unarmed for the second press; and a
press whose release arrives exactly at the long-press deadline still
classifies as long-press — the boundary is inclusive toward long-press. -/
theorem claim_C7 :
    (∀ (s0 : BtnState) (t1 t2 t3 : Nat),
      s0.pause_timer = none → s0.long_press_timer = none → s0.paused = false →
      s0.last_click_time + DOUBLE_CLICK_MS ≤ t1 →
      t1 ≤ t2 → t2 < t1 + PAUSE_HOLD_MS →
      t2 ≤ t3 → t3 < t2 + DOUBLE_CLICK_MS →
      (process (process (process s0 t1 Edge.press) t2 Edge.release) t3
          Edge.press).gestures = s0.gestures ++ [Gest.doubleClick] ∧
      (process (process (process s0 t1 Edge.press) t2 Edge.release) t3
          Edge.press).pause_timer = none ∧
      (process (process (process s0 t1 Edge.press) t2 Edge.release) t3
          Edge.press).long_press_timer = none) ∧
    (∀ (s0 : BtnState) (t1 : Nat),
      s0.pause_timer = none → s0.long_press_timer = none → s0.paused = false →
      s0.last_click_time + DOUBLE_CLICK_MS ≤ t1 →
      Gest.longPress ∈
        (process (process s0 t1 Edge.press) (t1 + LONG_PRESS_MS)
          Edge.release).gestures) := by
  constructor
  · intro s0 t1 t2 t3 hp hl hpa hdc h12 hph h23 hdc2
    have hndc1 : ¬ t1 - s0.last_click_time < DOUBLE_CLICK_MS := by
      simp only [DOUBLE_CLICK_MS] at hdc ⊢
      omega
    have e1 : process s0 t1 Edge.press
        = { s0 with
            button_press_time := t1, holding := true,
            response_delay_timer := none,
            pause_timer := some (t1 + PAUSE_HOLD_MS),
            long_press_timer := some (t1 + LONG_PRESS_MS) } := by
      show on_button_press_active (fire_due s0 t1) t1 = _
      rw [show fire_due s0 t1 = s0 by simp [fire_due, hp, hl]]
      simp [on_button_press_active, hndc1, hpa]
    have hnp : ¬ t1 + PAUSE_HOLD_MS ≤ t2 := by omega
    have hnl : ¬ t1 + LONG_PRESS_MS ≤ t2 := by
      simp only [PAUSE_HOLD_MS] at hph
      simp only [LONG_PRESS_MS]
      omega
    have efd2 : fire_due { s0 with
          button_press_time := t1, holding := true,
          response_delay_timer := none,
          pause_timer := some (t1 + PAUSE_HOLD_MS),
          long_press_timer := some (t1 + LONG_PRESS_MS) } t2
        = { s0 with
            button_press_time := t1, holding := true,
            response_delay_timer := none,
            pause_timer := some (t1 + PAUSE_HOLD_MS),
            long_press_timer := some (t1 + LONG_PRESS_MS) } := by
      simp [fire_due, hnp, hnl]
    have e2 : process (process s0 t1 Edge.press) t2 Edge.release
        = { s0 with
            button_press_time := t1, holding := false,
            response_delay_timer := some (t2 + RESPONSE_DELAY_MS),
            pause_timer := none, long_press_timer := none,
            last_click_time := t2 } := by
      rw [e1]
      show on_button_release_active (fire_due _ t2) t2 = _
      rw [efd2]
      simp [on_button_release_active, hpa]
    have hdc3 : t3 - t2 < DOUBLE_CLICK_MS := by omega
    have efd3 : fire_due { s0 with
          button_press_time := t1, holding := false,
          response_delay_timer := some (t2 + RESPONSE_DELAY_MS),
          pause_timer := none, long_press_timer := none,
          last_click_time := t2 } t3
        = { s0 with
            button_press_time := t1, holding := false,
            response_delay_timer := some (t2 + RESPONSE_DELAY_MS),
            pause_timer := none, long_press_timer := none,
            last_click_time := t2 } := by
      simp [fire_due]
    have e3 : process (process (process s0 t1 Edge.press) t2 Edge.release) t3
        Edge.press
        = { s0 with
            button_press_time := t3, holding := false,
            response_delay_timer := none, pause_timer := none,
            long_press_timer := none, last_click_time := 0,
            paused := !s0.paused,
            gestures := s0.gestures ++ [Gest.doubleClick] } := by
      rw [e2]
      show on_button_press_active (fire_due _ t3) t3 = _
      rw [efd3]
      simp [on_button_press_active, toggle_pause, hdc3]
    rw [e3]
    exact ⟨rfl, rfl, rfl⟩
  · intro s0 t1 hp hl hpa hdc
    have hndc1 : ¬ t1 - s0.last_click_time < DOUBLE_CLICK_MS := by
      simp only [DOUBLE_CLICK_MS] at hdc ⊢
      omega
    have e1 : process s0 t1 Edge.press
        = { s0 with
            button_press_time := t1, holding := true,
            response_delay_timer := none,
            pause_timer := some (t1 + PAUSE_HOLD_MS),
            long_press_timer := some (t1 + LONG_PRESS_MS) } := by
      show on_button_press_active (fire_due s0 t1) t1 = _
      rw [show fire_due s0 t1 = s0 by simp [fire_due, hp, hl]]
      simp [on_button_press_active, hndc1, hpa]
    have e2 : fire_due { s0 with
          button_press_time := t1, holding := true,
          response_delay_timer := none,
          pause_timer := some (t1 + PAUSE_HOLD_MS),
          long_press_timer := some (t1 + LONG_PRESS_MS) } (t1 + LONG_PRESS_MS)
        = { s0 with
            button_press_time := t1, holding := true,
            response_delay_timer := none,
            pause_timer := none, long_press_timer := none,
            paused := !s0.paused,
            gestures := s0.gestures ++ [Gest.pauseHold, Gest.longPress] } := by
      have h1 : t1 + PAUSE_HOLD_MS ≤ t1 + LONG_PRESS_MS := by
        simp only [PAUSE_HOLD_MS, LONG_PRESS_MS]
        omega
      simp [fire_due, h1, on_pause_hold, on_long_press, toggle_pause]
    rw [show process (process s0 t1 Edge.press) (t1 + LONG_PRESS_MS) Edge.release
        = on_button_release_active (fire_due (process s0 t1 Edge.press)
            (t1 + LONG_PRESS_MS)) (t1 + LONG_PRESS_MS) from rfl, e1, e2]
    simp [on_button_release_active, hpa]

/-- Witness for C7 at concrete times: presses at 1000 and 1700 ms with a
release at 1500 ms form a double-click; a press at 1000 ms released exactly
at 6000 ms logs a long-press. -/
theorem claim_C7_witness :
    (process (process (process init_btn 1000 Edge.press) 1500 Edge.release)
        1700 Edge.press).gestures = [Gest.doubleClick] ∧
    Gest.longPress ∈
      (process (process init_btn 1000 Edge.press) (1000 + LONG_PRESS_MS)
        Edge.release).gestures := by
  constructor
  · exact ((claim_C7.1 init_btn 1000 1500 1700 rfl rfl rfl (by decide)
      (by decide) (by decide) (by decide) (by decide)).1)
  · exact claim_C7.2 init_btn 1000 rfl rfl rfl (by decide)

end Gesture
/-! ## Session / Connection lifecycle (src/core/state_machine.py)

The connect path of the Session (VoiceAgentStateMachine) is not atomic.
_on_button_press_idle (lines 394-404) runs under the Session lock and, on a
double-click, calls start_agent (lines 110-143): a fresh VoiceAgent is
assigned to self._agent and do_connect is spawned on a daemon thread, while
the machine stays in the idle state with the idle button handlers still
registered until that thread finishes.  The thread reads self._agent, runs
connect() on that object off the lock (VoiceAgent.connect raises _running
and opens the socket, mic pipe and speaker pipe), and only afterwards takes
the lock for the post-check — which consults the CURRENT self._agent, not
the object it just connected — before transitioning to active, or back to
asleep when the current agent is missing or not running.  Nothing in either
path disconnects a previously assigned VoiceAgent.

The model records every Connection ever built, in creation order, as its
running flag; agent is the index self._agent refers to; threads are the
do_connect threads in flight — spawned before the read of self._agent,
finished i once connect() ran on Connection i (connectRun when the connect
succeeded, connectRunFail when it raised and left the flag down). -/

namespace SessionConn

inductive Phase where
  | asleep | idle | active
  deriving DecidableEq

inductive TState where
  | spawned
  | finished (i : Nat)
  deriving DecidableEq

structure Session where
  conns : List Bool
  agent : Option Nat
  phase : Phase
  threads : List TState
  deriving DecidableEq

/-- Process start: __init__ ends with _set_state("asleep"), no agent and no
connect thread. -/
def init_session : Session :=
  { conns := [], agent := none, phase := Phase.asleep, threads := [] }

inductive Step : Session → Session → Prop where
  | wake (s : Session) : s.phase = Phase.asleep →
      Step s { s with phase := Phase.idle }
  | idleSleep (s : Session) : s.phase = Phase.idle →
      Step s { s with phase := Phase.asleep }
  | startAgent (s : Session) : s.phase = Phase.idle →
      Step s { s with
               conns := s.conns ++ [false],
               agent := some s.conns.length,
               threads := s.threads ++ [TState.spawned] }
  | connectRun (s : Session) (k i : Nat) :
      s.threads[k]? = some TState.spawned → s.agent = some i →
      Step s { s with
               conns := s.conns.set i true,
               threads := s.threads.set k (TState.finished i) }
  | connectRunFail (s : Session) (k i : Nat) :
      s.threads[k]? = some TState.spawned → s.agent = some i →
      Step s { s with threads := s.threads.set k (TState.finished i) }
  | postCheckOk (s : Session) (k i j : Nat) :
      s.threads[k]? = some (TState.finished i) →
      s.agent = some j → s.conns[j]? = some true →
      Step s { s with phase := Phase.active, threads := s.threads.eraseIdx k }
  | postCheckFailNone (s : Session) (k i : Nat) :
      s.threads[k]? = some (TState.finished i) → s.agent = none →
      Step s { s with phase := Phase.asleep, threads := s.threads.eraseIdx k }
  | postCheckFailDead (s : Session) (k i j : Nat) :
      s.threads[k]? = some (TState.finished i) →
      s.agent = some j → s.conns[j]? = some false →
      Step s { s with phase := Phase.asleep, threads := s.threads.eraseIdx k }

inductive Reachable : Session → Prop where
  | init : Reachable init_session
  | step {s t : Session} : Reachable s → Step s t → Reachable t

/-- The state the failing trace ends in: both Connections ever built are
open, the Session references only the second, and the first is stranded —
no reference to it remains, so it can never be disconnected. -/
def two_open_session : Session :=
  { conns := [true, true], agent := some 1, phase := Phase.active,
    threads := [] }

/-- The failing trace: wake; first double-click (Connection 0 built,
do_connect spawned, machine still idle); thread 1 reads self._agent and
connect() on Connection 0 succeeds; second double-click while thread 1 has
not yet run its post-check (Connection 1 built, second thread spawned);
thread 2 connects Connection 1; thread 1's post-check reads the current
self._agent — Connection 1, which is running — and transitions to active;
thread 2's post-check does the same. -/
theorem two_open_reachable : Reachable two_open_session := by
  have h0 : Reachable init_session := Reachable.init
  have h1 := Reachable.step h0 (Step.wake init_session rfl)
  have h2 := Reachable.step h1 (Step.startAgent _ rfl)
  have h3 := Reachable.step h2 (Step.connectRun _ 0 0 rfl rfl)
  have h4 := Reachable.step h3 (Step.startAgent _ rfl)
  have h5 := Reachable.step h4 (Step.connectRun _ 1 1 rfl rfl)
  have h6 := Reachable.step h5 (Step.postCheckOk _ 0 0 1 rfl rfl rfl)
  have h7 := Reachable.step h6 (Step.postCheckOk _ 0 1 1 rfl rfl rfl)
  exact h7

/-- C5 (code bug): the claimed single-open-connection invariant fails on the
program.  A second double-click while the first connect is still in flight
reaches a state in which two Connections are simultaneously open: the
Session holds the second while the first stays open with no reference left
to disconnect it — the new connect began without the previous Connection
ever being disconnected. -/
theorem claim_C5_bug :
    Reachable two_open_session ∧
    two_open_session.conns.countP (fun b => b) = 2 ∧
    two_open_session.agent = some 1 ∧
    two_open_session.conns[0]? = some true :=
  ⟨two_open_reachable, by decide, rfl, rfl⟩

end SessionConn

end MomBot
